import Mathlib

/-!
Verification development for the coba work-distribution and fault-tolerant
execution engine.  The definitions below are shallow embeddings of the Python
source:

* `src/coba/pipes/multiprocessing.py` — the worker-pool execution engine
  (`PipeMultiprocessor`, its inner `Processor`, the `done_or_failed` callback,
  and the `MyPool._join_exited_workers` override).
* `src/coba/experiments/core.py` — the run orchestrator
  (`Experiment.__init__` and `Experiment.run`).

Machine-level details that live in CPython's standard library (queues,
`multiprocessing.pool` internals) are abstracted: a queue becomes a list of
written values, a pending `map_async` result becomes a `Job` record, the pool
of worker processes becomes a list of `WorkerP` records carrying exit codes.
Pipe combinators of the repository that are not part of the provided sources
(`Insert`, `Identity`, the transaction codec) are modelled from the spec where
a claim depends on them; each such definition says so in its doc comment.
-/

namespace Coba

/-! ### Values travelling on the two channels

`QueueIO` queues carry arbitrary Python values; the engine writes work-item
results to `stdout_IO`, and error records, diagnostic strings or raw
exceptions to `stderr_IO`.  `sentinel` stands for Python `None`, the
end-of-stream marker. -/

/-- A value written to the result channel (`stdout_IO`): a produced result
item, or the `None` end-of-stream sentinel. -/
inductive OutVal where
  | item (v : Nat)
  | sentinel
deriving DecidableEq, Repr

/-- A value written to the error channel (`stderr_IO`): the 4-tuple written by
`Processor.process` on an item failure, a diagnostic message string, a raw
exception forwarded by `done_or_failed`, or the `None` sentinel.  Exceptions
are represented by their `str` rendering. -/
inductive ErrVal where
  | errRecord (time : Nat) (pname : String) (e : String) (tb : List String)
  | message (s : String)
  | excValue (e : String)
  | sentinel
deriving DecidableEq, Repr

/-- The two manager queues created in `PipeMultiprocessor.filter`; a queue is
modelled as the list of values written to it, in write order. -/
structure Channels where
  stdout : List OutVal
  stderr : List ErrVal
deriving DecidableEq, Repr

/-- The empty pair of channels. -/
def Channels.empty : Channels := ⟨[], []⟩

/-! ### The worker-side processor (`PipeMultiprocessor.Processor.process`)

```python
def process(self, item) -> None:
    try:
        self._stdout.write(self._filter.filter(item))
    except Exception as e:
        self._stderr.write((time.time(), current_process().name, e,
                            traceback.format_tb(e.__traceback__)))
    except KeyboardInterrupt:
        pass
```

One call of `process` on one item is modelled by its observable outcome: the
tried block either produces a value written to `stdout`, raises an `Exception`
(caught, written to `stderr` as the 4-tuple), or raises `KeyboardInterrupt`
(caught and ignored; in Python `KeyboardInterrupt` is not an `Exception`
subclass, so only the second handler sees it).  `time` and `pname` are the
ambient `time.time()` and `current_process().name` at the moment of the
failure, carried on the outcome. -/

/-- Outcome of running `self._filter.filter(item)` (plus the `stdout` write)
for one work item inside a worker. -/
inductive TaskOutcome where
  | ok (v : Nat)
  | exc (time : Nat) (pname : String) (e : String) (tb : List String)
  | interrupt
deriving DecidableEq, Repr

/-- `Processor.process` for a single item: writes the result on success,
writes the timestamp/worker/error/traceback 4-tuple to the error channel on an
`Exception`, and swallows `KeyboardInterrupt`.  It always returns (the worker
is not terminated by an item failure). -/
def Processor.process (ch : Channels) (o : TaskOutcome) : Channels :=
  match o with
  | .ok v => { ch with stdout := ch.stdout ++ [.item v] }
  | .exc t p e tb => { ch with stderr := ch.stderr ++ [.errRecord t p e tb] }
  | .interrupt => ch

/-- Sequential processing of a chunk's items by a worker (`map_async` hands
items to `Processor.process` one at a time). -/
def processAll (ch : Channels) (os : List TaskOutcome) : Channels :=
  os.foldl Processor.process ch

/-- The `stdout` writes produced by a list of item outcomes. -/
def outWrites (os : List TaskOutcome) : List OutVal :=
  os.filterMap fun o =>
    match o with
    | .ok v => some (.item v)
    | _ => none

/-- The `stderr` writes produced by a list of item outcomes. -/
def errWrites (os : List TaskOutcome) : List ErrVal :=
  os.filterMap fun o =>
    match o with
    | .exc t p e tb => some (.errRecord t p e tb)
    | _ => none

/-! ### The completion callback (`done_or_failed`)

```python
def done_or_failed(results_or_exception=None):
    if isinstance(results_or_exception, Exception):
        if "Can't pickle" in str(results_or_exception) or "Pickling" in str(results_or_exception):
            message = (str(results_or_exception) + ". We attempted ...")
            stderr_IO.write(message)
        else:
            stderr_IO.write(results_or_exception)
    stdout_IO.write(None)
    stderr_IO.write(None)
```
-/

/-- The phrase `"Can't pickle"` tested for by `done_or_failed` (the apostrophe
is written as an escape). -/
def cantPicklePhrase : String := "Can\x27t pickle"

/-- Python's `needle in hay` substring test, on character lists. -/
def charsContain (needle : List Char) : List Char → Bool
  | [] => needle.isEmpty
  | c :: t => needle.isPrefixOf (c :: t) || charsContain needle t

/-- Python's `needle in hay` substring test on strings. -/
def strIn (needle hay : String) : Bool :=
  charsContain needle.toList hay.toList

/-- `done_or_failed`'s test for a pickling failure: either pickling phrase
occurs in the rendered exception. -/
def isPicklingError (e : String) : Bool :=
  strIn cantPicklePhrase e || strIn "Pickling" e

/-- The actionable diagnostic appended to a pickling failure (suffix added to
`str(results_or_exception)`), from `PipeMultiprocessor.filter`. -/
def pickleMessage : String :=
  ". We attempted to process your code on multiple processes but " ++
  "the named class could not be pickled. This problem can be fixed in one of two ways: 1) " ++
  "evaluate the experiment in question on a single process with no limit on the tasks per child or 2) " ++
  "modify the named class to be picklable. The easiest way to make a given class picklable is to " ++
  "add a reduce dunder method returning the class in question together with a tuple of constructor arguments to " ++
  "the class. For more information see https://docs.python.org/3/library/pickle.html#object.__reduce__."

/-- The argument `map_async` passes to its (error-)callback: the collected
results on success, or the exception that failed the map. -/
inductive DoneArg where
  | results
  | excArg (e : String)
deriving DecidableEq, Repr

/-- `done_or_failed`: if called with an exception, writes either the specific
pickling diagnostic or the raw exception to the error channel; in every case
it then writes the `None` sentinel to both channels. -/
def doneOrFailed (arg : Option DoneArg) (ch : Channels) : Channels :=
  let ch1 : Channels :=
    match arg with
    | some (.excArg e) =>
        if isPicklingError e then
          { ch with stderr := ch.stderr ++ [.message (e ++ pickleMessage)] }
        else
          { ch with stderr := ch.stderr ++ [.excValue e] }
    | _ => ch
  { ch1 with stdout := ch1.stdout ++ [.sentinel], stderr := ch1.stderr ++ [.sentinel] }

/-- One full run of the engine's producing side, to completion
(`PipeMultiprocessor.filter` up to and including the single `done_or_failed`
call).  When `items` is empty, `result.ready()` is true immediately and
`done_or_failed()` is called with no argument (the `map_async` callback never
fires for an empty input, per the source comment); otherwise the items are
processed and `done_or_failed` fires once with the completion argument. -/
def engineRun (items : List TaskOutcome) (comp : DoneArg) : Channels :=
  if items.isEmpty then doneOrFailed none Channels.empty
  else doneOrFailed (some comp) (processAll Channels.empty items)

/-! ### Pool supervision (`MyPool._join_exited_workers`)

```python
def _join_exited_workers(self):
    for worker in self._pool:
        if worker.exitcode == 1000 and MyPool._missing_error_definition_error_is_new:
            MyPool._missing_error_definition_error_is_new = False
            message = ("We attempted to evaluate your code in multiple processes ...")
            stderr_IO.write(message)
        if worker.exitcode is not None and worker.exitcode != 0:
            list(self._cache.values())[0]._set(None, (False, None))
    return super()._join_exited_workers()
```

A worker is its optional exit code (`none` while still running; `1000` is the
exit code the patched `worker` function uses for import/`AttributeError`
failures, `2000` for `KeyboardInterrupt`).  The pool's `_cache` is the list of
pending job results; `_set(None, (False, None))` marks a pending job complete
(`done`) and failed (`success = false`) — the synthesized completion sentinel.
`list(...)[0]` on an empty cache would raise `IndexError`, which the model
keeps as the `Except.error` case.  The trailing `super()._join_exited_workers()`
is CPython library code (it reaps exited worker processes); it touches none of
the modelled fields and is abstracted away. -/

/-- The diagnostic written once when a worker exits with the import-error exit
code 1000 (text from `MyPool._join_exited_workers`; apostrophes escaped). -/
def missingDefinitionMessage : String :=
  "We attempted to evaluate your code in multiple processes but we were unable to find all the code " ++
  "definitions needed to pass the tasks to the processes. The two most common causes of this error are: " ++
  "1) a learner or simulation is defined in a Jupyter Notebook cell or 2) a necessary class definition " ++
  "exists inside the name-equals-main code block in the main execution script. In either case " ++
  "you can choose one of two simple solutions: 1) evaluate your code in a single process with no limit " ++
  "child tasks or 2) define all necessary classes in a separate file and include the classes via " ++
  "module inclusion statements."

/-- A worker process as seen by `_join_exited_workers`: just its exit code
(`none` while the process is alive). -/
structure WorkerP where
  exitcode : Option Int
deriving DecidableEq, Repr

/-- A pending job result in the pool's `_cache`.  `_set(None, (False, None))`
turns it into `⟨true, false⟩`: complete but failed. -/
structure Job where
  done : Bool
  success : Bool
deriving DecidableEq, Repr

/-- The state read and written by `MyPool._join_exited_workers`: the worker
list, the pending-job cache, the `_missing_error_definition_error_is_new`
class flag, and the error channel it writes diagnostics to. -/
structure PoolState where
  pool : List WorkerP
  cache : List Job
  flagNew : Bool
  stderrOut : List ErrVal
deriving DecidableEq, Repr

/-- First `if` of the `for worker in self._pool` loop body: write the
missing-definition diagnostic once, while the
`_missing_error_definition_error_is_new` flag is still fresh, when a worker
exited with the import-error exit code 1000. -/
def flagStep (s : PoolState) (w : WorkerP) : PoolState :=
  if w.exitcode = some 1000 ∧ s.flagNew then
    { s with flagNew := false,
             stderrOut := s.stderrOut ++ [.message missingDefinitionMessage] }
  else s

/-- The body of the `for worker in self._pool` loop for one worker. -/
def joinWorkerStep (s : PoolState) (w : WorkerP) : Except String PoolState :=
  let s1 := flagStep s w
  match w.exitcode with
  | some c =>
      if c ≠ 0 then
        match s1.cache with
        | [] => .error "IndexError"
        | _ :: rest => .ok { s1 with cache := ⟨true, false⟩ :: rest }
      else .ok s1
  | none => .ok s1

/-- `MyPool._join_exited_workers`: the loop over the pool's workers. -/
def joinExitedWorkers (s : PoolState) : Except String PoolState :=
  s.pool.foldlM joinWorkerStep s

/-- `n` successive invocations of `_join_exited_workers` (the pool's
supervisor thread polls it repeatedly). -/
def joinIter : Nat → PoolState → Except String PoolState
  | 0, s => .ok s
  | n + 1, s => joinExitedWorkers s >>= joinIter n

/-- Does some worker in the list carry the import-error exit code 1000? -/
def anyImportExit (ws : List WorkerP) : Bool :=
  ws.any fun w => w.exitcode == some 1000

/-- Number of occurrences of the missing-definition diagnostic on the error
channel. -/
def countMissingDefMsg (es : List ErrVal) : Nat :=
  es.countP fun v => v == .message missingDefinitionMessage

/-- The head of the pending-job cache has been marked with the synthesized
completion sentinel `(False, None)`: complete (`done`) and failed
(`¬ success`). -/
def headMarked (s : PoolState) : Prop :=
  ∃ rest, s.cache = Job.mk true false :: rest

/-- A worker that terminated abnormally: it has an exit code and the exit
code is non-zero. -/
def crashedW (w : WorkerP) : Prop :=
  ∃ c : Int, w.exitcode = some c ∧ c ≠ 0

/-- A pool state with one import-error worker exit and one pending job,
used to instantiate the C6 theorem. -/
def samplePoolState : PoolState :=
  ⟨[WorkerP.mk (some 1000)], [Job.mk false true], true, []⟩

/-! ### The engine's consumer loop (`PipeMultiprocessor.filter`, tail)

```python
try:
    for item in stdout_IO.read():
        yield item
    pool.close()
except (KeyboardInterrupt, Exception):
    try:
        pool.terminate()
    except:
        pass
    raise
finally:
    pool.join()
```

`stdout_IO.read()` yields queue items until the `None` sentinel; `stream` is
the list of items before the sentinel.  A `KeyboardInterrupt` may be delivered
at any iteration of the loop; `intrAt = some k` means it arrives just before
the `k`-th item is yielded (`none`: no interrupt).  `terminate` itself may
raise (`termFails`); the bare `except: pass` swallows that and the original
interrupt is re-raised. -/

/-- What happened to the pool when the consumer loop finished. -/
inductive PoolFate where
  | closed
  | terminated
  | terminateAttemptFailed
deriving DecidableEq, Repr

/-- Result of the consumer loop: the items actually yielded downstream,
the pool teardown that was performed, whether `pool.join()` ran, and whether
the interrupt was re-raised to the engine's caller. -/
structure CollectResult where
  yielded : List OutVal
  fate : PoolFate
  joined : Bool
  reraised : Bool
deriving DecidableEq, Repr

/-- The `for item in stdout_IO.read(): yield item` loop, reading item `i`
next: returns the items yielded and whether a `KeyboardInterrupt` arrived. -/
def readLoop (intrAt : Option Nat) : List OutVal → Nat → List OutVal × Bool
  | [], _ => ([], false)
  | x :: xs, i =>
      if intrAt = some i then ([], true)
      else
        let r := readLoop intrAt xs (i + 1)
        (x :: r.1, r.2)

/-- The engine's consumer side: yields results as they stream in; on a
`KeyboardInterrupt` it stops collecting, attempts `pool.terminate()`
(swallowing any failure of the attempt), re-raises, and in all cases runs
`pool.join()`. -/
def engineCollect (stream : List OutVal) (intrAt : Option Nat)
    (termFails : Bool) : CollectResult :=
  let r := readLoop intrAt stream 0
  if r.2 then
    { yielded := r.1,
      fate := if termFails then .terminateAttemptFailed else .terminated,
      joined := true,
      reraised := true }
  else
    { yielded := r.1, fate := .closed, joined := true, reraised := false }

end Coba

namespace CobaExp

open Coba

/-! ### The orchestrator (`src/coba/experiments/core.py`)

`Experiment.__init__` stores the (learner, environment) pairs and fails fast
on a `None` reference; `Experiment.run` sets up the run context, optionally
validates a restored transaction log, runs the pipeline, and restores the
context.  Learners and environments are identified by `Nat` ids (Python
compares them by object identity when building the `set` of distinct
learners/environments).  A reference that may be `None` is an `Option Nat`. -/

/-- The repository's `CobaException` configuration error. -/
inductive CobaErr where
  | cobaException (msg : String)
deriving DecidableEq, Repr

/-- Message raised by `Experiment.__init__` for a `None` learner. -/
def learnerNoneMessage : String :=
  "A Learner was given whose value was None, which can\x27t be processed."

/-- Message raised by `Experiment.__init__` for a `None` environment. -/
def environmentNoneMessage : String :=
  "An Environment was given whose value was None, which can\x27t be processed."

/-- A constructed `Experiment`: the stored evaluation pairs
(`self._pairs`). -/
structure ExperimentCfg where
  pairs : List (Option Nat × Option Nat)
deriving DecidableEq, Repr

/-- `Experiment.__init__` on the `(learner, environment)` pairs form (the
two-collection form is reduced to this form by the `product`/`zip` dance on
its first lines): stores the pairs, then raises `CobaException` if any
learner is `None`, then if any environment is `None`. -/
def Experiment.init (pairs : List (Option Nat × Option Nat)) :
    Except CobaErr ExperimentCfg :=
  if pairs.any fun p => p.1.isNone then
    .error (.cobaException learnerNoneMessage)
  else if pairs.any fun p => p.2.isNone then
    .error (.cobaException environmentNoneMessage)
  else .ok ⟨pairs⟩

/-! #### `Experiment.run`

The pieces of `run` the claims depend on, in source order:

```python
CobaContext.store['experiment_seed'] = seed
old_logger = CobaContext.logger
CobaContext.logger = DecoratedLogger(...)
restored = Result.from_file(result_file)  # when the file exists
n_given_learners     = len(set([l for l,_ in self._pairs]))
n_given_environments = len(set([e for _,e in self._pairs]))
if restored:
    assert n_given_learners     == restored.experiment.get('n_learners', n_given_learners), ...
    assert n_given_environments == restored.experiment.get('n_environments', n_given_environments), ...
meta = {'n_learners': ..., 'n_environments': ..., 'description': ..., 'seed': ...}
...
preamble = Identity() if restored else Insert([["T0", meta]])
try:
    Pipes.join(workitems, unfinished, chunk, max_chunk, process, preamble, encode, sink).run()
except KeyboardInterrupt:
    CobaContext.logger.log("Experiment Aborted (aborted via Ctrl-C)")
except Exception as ex:
    CobaContext.logger.log(ex); CobaContext.logger.log("Experiment Stopped")
CobaContext.logger = old_logger
del CobaContext.store['experiment_seed']
return Pipes.join(source, decode, result).read()
```

The pipeline run itself (work-item creation through the multiprocessor) is
abstracted as a parameter `pr : PipeRun`: the transaction rows its body wrote
to the sink and how it terminated.  The transaction codec is not among the
provided sources; per the spec (§4.5) `encode`/`decode` are exact inverses,
so the decoded `Result` is modelled as the row list the sink holds
(`Modelled from the spec:` the codec is the identity on rows). -/

/-- A transaction row in the sink: the `["T0", meta]` run-header row
(learner count, environment count, description, seed) or any other encoded
row, identified by an id. -/
inductive Row where
  | runMeta (nLearners nEnvironments : Nat) (descr : Option String) (seed : Option Int)
  | dataRow (d : Nat)
deriving DecidableEq, Repr

/-- The restored `Result` of a prior run: the experiment metadata recovered
from its `T0` row — `restored.experiment.get(...)` may find no entry, hence
the `Option` counts — and its transaction rows. -/
structure Restored where
  nLearners : Option Nat
  nEnvironments : Option Nat
  rows : List Row
deriving DecidableEq, Repr

/-- How the pipeline (`Pipes.join(...).run()`) terminated. -/
inductive PipeTerm where
  | normal
  | excn (e : String)
  | interrupt
deriving DecidableEq, Repr

/-- An execution of the pipeline body: the rows it wrote to the sink beyond
the preamble, and its termination. -/
structure PipeRun where
  written : List Row
  term : PipeTerm
deriving DecidableEq, Repr

/-- `CobaContext.logger`: a base logger possibly wrapped by
`DecoratedLogger`s. -/
inductive Logger where
  | base (id : Nat)
  | decorated (inner : Logger)
deriving DecidableEq, Repr

/-- The mutable `CobaContext` state `Experiment.run` touches: the logger and
the `store` dictionary (modelled as an association list with at most one
binding per key, as a Python dict). -/
structure Ctx where
  logger : Logger
  store : List (String × Option Int)
deriving DecidableEq, Repr

/-- Dictionary update `store[k] = v`. -/
def storeInsert (st : List (String × Option Int)) (k : String) (v : Option Int) :
    List (String × Option Int) :=
  (k, v) :: st.filter fun p => p.1 ≠ k

/-- Dictionary deletion `del store[k]`. -/
def storeErase (st : List (String × Option Int)) (k : String) :
    List (String × Option Int) :=
  st.filter fun p => p.1 ≠ k

/-- The ways `Experiment.run` can raise to its caller in the modelled
fragment: the resume-compatibility `assert`s (`AssertionError`), or a
propagated `KeyboardInterrupt` (which the claim under test expects but the
source never produces). -/
inductive RunError where
  | assertionError (msg : String)
  | keyboardInterrupt
deriving DecidableEq, Repr

/-- Message of both resume-compatibility assertions. -/
def logMismatchMessage : String :=
  "The current experiment doesn\x27t match the given transaction log."

/-- What a completed `Experiment.run` hands back: the decoded `Result` rows,
the rows this run appended to the sink, the log lines emitted, and the final
`CobaContext`. -/
structure RunOut where
  resultRows : List Row
  writtenByRun : List Row
  logs : List String
  ctx : Ctx
deriving DecidableEq, Repr

/-- `n_given_learners`: size of the set of distinct learner references. -/
def nGivenLearners (cfg : ExperimentCfg) : Nat :=
  (cfg.pairs.map Prod.fst).dedup.length

/-- `n_given_environments`: size of the set of distinct environment
references. -/
def nGivenEnvironments (cfg : ExperimentCfg) : Nat :=
  (cfg.pairs.map Prod.snd).dedup.length

/-- The conjunction of the two resume-compatibility `assert`s of
`Experiment.run`: each requested count must equal the logged count, where a
count missing from the restored metadata defaults to the requested one
(`restored.experiment.get(key, default)`). -/
def assertsPassB (cfg : ExperimentCfg) (restored : Option Restored) : Bool :=
  match restored with
  | some r =>
      (nGivenLearners cfg == r.nLearners.getD (nGivenLearners cfg)) &&
      (nGivenEnvironments cfg == r.nEnvironments.getD (nGivenEnvironments cfg))
  | none => true

/-- The rows already in the durable sink before this run appends
(`DiskSink(result_file)` is opened in append mode, so a resumed run's sink
starts with the restored rows; a fresh run's sink is empty). -/
def priorRows (restored : Option Restored) : List Row :=
  match restored with
  | some r => r.rows
  | none => []

/-- The rows contributed by the `preamble` pipe:
`Identity() if restored else Insert([["T0", meta]])`. -/
def preambleRows (cfg : ExperimentCfg) (restored : Option Restored)
    (seed : Option Int) (descr : Option String) : List Row :=
  match restored with
  | some _ => []
  | none => [Row.runMeta (nGivenLearners cfg) (nGivenEnvironments cfg) descr seed]

/-- `Experiment.run`.  `restored` stands for `Result.from_file(result_file)`
when the file exists (`none` otherwise); `pr` abstracts the pipeline body.
The preamble is `Insert([["T0", meta]])` for a fresh run and `Identity()` for
a resumed one (`Modelled from the spec:` the `Insert` pipe, not among the
provided sources, prepends its rows to the stream — the spec fixes the `T0`
row as the log's first record on a fresh run).  `KeyboardInterrupt` and any
`Exception` from the pipeline are caught and logged; the logger is then
restored, the seed entry deleted, and the decoded sink content returned. -/
def Experiment.run (cfg : ExperimentCfg) (restored : Option Restored)
    (seed : Option Int) (descr : Option String) (pr : PipeRun) (ctx : Ctx) :
    Except RunError RunOut :=
  let store1 := storeInsert ctx.store "experiment_seed" seed
  let oldLogger := ctx.logger
  let ctxDuring : Ctx := { logger := Logger.decorated ctx.logger, store := store1 }
  let logs0 : List String :=
    match restored with
    | some _ => ["Restoring existing experiment logs..."]
    | none => []
  if assertsPassB cfg restored then
    let written := preambleRows cfg restored seed descr ++ pr.written
    let pipeLogs : List String :=
      match pr.term with
      | .normal => ["Experiment Started", "Experiment Finished"]
      | .interrupt => ["Experiment Started", "Experiment Aborted (aborted via Ctrl-C)"]
      | .excn e => ["Experiment Started", e, "Experiment Stopped"]
    .ok { resultRows := priorRows restored ++ written,
          writtenByRun := written,
          logs := logs0 ++ pipeLogs,
          ctx := { logger := oldLogger,
                   store := storeErase ctxDuring.store "experiment_seed" } }
  else
    .error (.assertionError logMismatchMessage)

/-- Did a call of `Experiment.run` propagate a `KeyboardInterrupt` to its
caller? -/
def runRaisedInterrupt : Except RunError RunOut → Bool
  | .error .keyboardInterrupt => true
  | _ => false

/-- Did a call of `Experiment.run` return normally? -/
def runReturnedOk : Except RunError RunOut → Bool
  | .ok _ => true
  | _ => false

end CobaExp

/-! ## Theorems -/

namespace Coba

theorem processAll_cons (ch : Channels) (o : TaskOutcome) (t : List TaskOutcome) :
    processAll ch (o :: t) = processAll (Processor.process ch o) t := rfl

theorem processAll_stdout (os : List TaskOutcome) (ch : Channels) :
    (processAll ch os).stdout = ch.stdout ++ outWrites os := by
  induction os generalizing ch with
  | nil => simp [processAll, outWrites]
  | cons o t ih =>
      rw [processAll_cons, ih]
      cases o <;> simp [Processor.process, outWrites, List.filterMap_cons]

theorem processAll_stderr (os : List TaskOutcome) (ch : Channels) :
    (processAll ch os).stderr = ch.stderr ++ errWrites os := by
  induction os generalizing ch with
  | nil => simp [processAll, errWrites]
  | cons o t ih =>
      rw [processAll_cons, ih]
      cases o <;> simp [Processor.process, errWrites, List.filterMap_cons]

/-- **C2.** For every input stream of chunks, including the empty stream,
when the stream is exhausted the execution engine writes the end-of-stream
sentinel (`None`) into both the result channel and the error channel: the
last value written to each channel by `engineRun` is the sentinel, so the
consumer of either channel never waits forever for another item. -/
theorem doneOrFailed_getLast (arg : Option DoneArg) (ch : Channels) :
    (doneOrFailed arg ch).stdout.getLast? = some OutVal.sentinel ∧
    (doneOrFailed arg ch).stderr.getLast? = some ErrVal.sentinel := by
  constructor <;> simp [doneOrFailed, List.getLast?_concat]

theorem claim_C2_completion_sentinels (items : List TaskOutcome) (comp : DoneArg) :
    (engineRun items comp).stdout.getLast? = some OutVal.sentinel ∧
    (engineRun items comp).stderr.getLast? = some ErrVal.sentinel := by
  unfold engineRun
  split
  · exact doneOrFailed_getLast none Channels.empty
  · exact doneOrFailed_getLast (some comp) (processAll Channels.empty items)

/-- **C4.** An exception raised by one item's task logic inside a worker is
caught there: the 4-tuple of timestamp, worker process name, error value and
string-rendered traceback is written to the error sink, and the worker
neither terminates nor aborts any sibling item — the result channel receives
exactly the writes of the surrounding items, as if the failing item were
absent. -/
theorem claim_C4_item_failure_isolation (pre post : List TaskOutcome)
    (t : Nat) (p : String) (e : String) (tb : List String) (ch : Channels) :
    ErrVal.errRecord t p e tb ∈
      (processAll ch (pre ++ TaskOutcome.exc t p e tb :: post)).stderr ∧
    (processAll ch (pre ++ TaskOutcome.exc t p e tb :: post)).stdout =
      (processAll ch (pre ++ post)).stdout := by
  constructor
  · rw [processAll_stderr]
    simp [errWrites, List.filterMap_append, List.filterMap_cons]
  · rw [processAll_stdout, processAll_stdout]
    simp [outWrites, List.filterMap_append, List.filterMap_cons]

/-! ### Pool supervision lemmas -/

theorem countMissingDefMsg_append (l1 l2 : List ErrVal) :
    countMissingDefMsg (l1 ++ l2) =
      countMissingDefMsg l1 + countMissingDefMsg l2 := by
  simp [countMissingDefMsg, List.countP_append]

/-- Behaviour of one iteration of the `for worker in self._pool` loop, for a
non-empty pending-job cache: it never raises, preserves the pool and the
cache length, preserves and possibly establishes the failed-and-complete mark
on the cache head, writes the missing-definition diagnostic exactly when the
flag is still fresh and the worker exited with code 1000, and clears the flag
exactly then. -/
theorem flagStep_pool (s : PoolState) (w : WorkerP) :
    (flagStep s w).pool = s.pool := by
  unfold flagStep
  split <;> rfl

theorem flagStep_cache (s : PoolState) (w : WorkerP) :
    (flagStep s w).cache = s.cache := by
  unfold flagStep
  split <;> rfl

theorem flagStep_count (s : PoolState) (w : WorkerP) :
    countMissingDefMsg (flagStep s w).stderrOut =
      countMissingDefMsg s.stderrOut +
        (if s.flagNew && (w.exitcode == some 1000) then 1 else 0) := by
  unfold flagStep
  by_cases h : w.exitcode = some 1000 ∧ s.flagNew
  · rw [if_pos h, ]
    have hb : (s.flagNew && (w.exitcode == some 1000)) = true := by
      simp [h.1, h.2]
    simp only [hb, if_true]
    show countMissingDefMsg (s.stderrOut ++ [.message missingDefinitionMessage]) = _
    rw [countMissingDefMsg_append]
    simp [countMissingDefMsg]
  · rw [if_neg h]
    cases hf : s.flagNew
    · simp [hf]
    · have : w.exitcode ≠ some 1000 := fun hcontra => h ⟨hcontra, hf⟩
      simp [this, hf]

theorem flagStep_flag (s : PoolState) (w : WorkerP) :
    (flagStep s w).flagNew = (s.flagNew && !(w.exitcode == some 1000)) := by
  unfold flagStep
  by_cases h : w.exitcode = some 1000 ∧ s.flagNew
  · rw [if_pos h]
    simp [h.1, h.2]
  · rw [if_neg h]
    cases hf : s.flagNew
    · simp [hf]
    · have : w.exitcode ≠ some 1000 := fun hcontra => h ⟨hcontra, hf⟩
      simp [this, hf]

theorem joinWorkerStep_spec (s : PoolState) (w : WorkerP) (hc : s.cache ≠ []) :
    ∃ s', joinWorkerStep s w = Except.ok s' ∧
      s'.pool = s.pool ∧
      s'.cache.length = s.cache.length ∧
      (headMarked s → headMarked s') ∧
      (crashedW w → headMarked s') ∧
      countMissingDefMsg s'.stderrOut =
        countMissingDefMsg s.stderrOut +
          (if s.flagNew && (w.exitcode == some 1000) then 1 else 0) ∧
      s'.flagNew = (s.flagNew && !(w.exitcode == some 1000)) := by
  have hpool := flagStep_pool s w
  have hcache := flagStep_cache s w
  have hcount := flagStep_count s w
  have hflag := flagStep_flag s w
  rcases hw : w.exitcode with _ | c
  · rw [hw] at hcount hflag
    refine ⟨flagStep s w, ?_, hpool, by rw [hcache], ?_, ?_, ?_, ?_⟩
    · simp [joinWorkerStep, hw]
    · rintro ⟨r, hr⟩
      exact ⟨r, by rw [hcache, hr]⟩
    · rintro ⟨c, hcw, -⟩
      rw [hw] at hcw
      exact absurd hcw (by simp)
    · simpa using hcount
    · simpa using hflag
  · rw [hw] at hcount hflag
    by_cases hc0 : c = 0
    · subst hc0
      refine ⟨flagStep s w, ?_, hpool, by rw [hcache], ?_, ?_, ?_, ?_⟩
      · simp [joinWorkerStep, hw]
      · rintro ⟨r, hr⟩
        exact ⟨r, by rw [hcache, hr]⟩
      · rintro ⟨c', hcw, hne⟩
        rw [hw] at hcw
        exact (hne (Option.some.inj hcw).symm).elim
      · exact hcount
      · exact hflag
    · rcases hcl : (flagStep s w).cache with _ | ⟨j, rest⟩
      · rw [hcache] at hcl
        exact absurd hcl hc
      · refine ⟨{ flagStep s w with cache := Job.mk true false :: rest }, ?_, hpool,
          ?_, ?_, ?_, hcount, hflag⟩
        · simp [joinWorkerStep, hw, hcl, hc0]
        · show (Job.mk true false :: rest).length = s.cache.length
          rw [← hcache, hcl]
          rfl
        · intro _
          exact ⟨rest, rfl⟩
        · intro _
          exact ⟨rest, rfl⟩

/-- Behaviour of the whole `_join_exited_workers` loop over a worker list,
for a non-empty pending-job cache. -/
theorem joinFold_spec (ws : List WorkerP) (s : PoolState) (hc : s.cache ≠ []) :
    ∃ s', ws.foldlM joinWorkerStep s = Except.ok s' ∧
      s'.pool = s.pool ∧
      s'.cache.length = s.cache.length ∧
      (headMarked s → headMarked s') ∧
      ((∃ w ∈ ws, crashedW w) → headMarked s') ∧
      countMissingDefMsg s'.stderrOut =
        countMissingDefMsg s.stderrOut +
          (if s.flagNew && anyImportExit ws then 1 else 0) ∧
      s'.flagNew = (s.flagNew && !anyImportExit ws) := by
  induction ws generalizing s with
  | nil =>
      refine ⟨s, rfl, rfl, rfl, fun h => h, ?_, ?_, ?_⟩
      · rintro ⟨w, hw, -⟩
        exact absurd hw (List.not_mem_nil w)
      · simp [anyImportExit]
      · simp [anyImportExit]
  | cons w ws ih =>
      obtain ⟨s1, hstep, hpool1, hlen1, hpres1, hcrash1, hcount1, hflag1⟩ :=
        joinWorkerStep_spec s w hc
      have hc1 : s1.cache ≠ [] := by
        intro hnil
        rw [hnil] at hlen1
        exact hc (List.length_eq_zero.mp hlen1.symm)
      obtain ⟨s2, hfold, hpool2, hlen2, hpres2, hcrash2, hcount2, hflag2⟩ := ih s1 hc1
      refine ⟨s2, ?_, hpool2.trans hpool1, hlen2.trans hlen1, ?_, ?_, ?_, ?_⟩
      · rw [List.foldlM_cons, hstep]
        exact hfold
      · intro h
        exact hpres2 (hpres1 h)
      · rintro ⟨w', hw', hcw'⟩
        rcases List.mem_cons.mp hw' with h | h
        · exact hpres2 (hcrash1 (h ▸ hcw'))
        · exact hcrash2 ⟨w', h, hcw'⟩
      · rw [hcount2, hcount1, hflag1]
        have : anyImportExit (w :: ws) =
            ((w.exitcode == some 1000) || anyImportExit ws) := by
          simp [anyImportExit]
        rw [this]
        cases hb1 : s.flagNew <;> cases hb2 : (w.exitcode == some 1000) <;>
          cases hb3 : anyImportExit ws <;> simp
      · rw [hflag2, hflag1]
        have : anyImportExit (w :: ws) =
            ((w.exitcode == some 1000) || anyImportExit ws) := by
          simp [anyImportExit]
        rw [this]
        cases hb2 : (w.exitcode == some 1000) <;> cases hb3 : anyImportExit ws <;> simp

/-- **C1.** If a worker process terminated abnormally (it has a non-zero exit
code) while a chunk is in flight (the pending-job cache is non-empty), then
`_join_exited_workers` (i) returns normally — no exception escapes, so the
orchestrating pool is not crashed — and (ii) has marked the pending result at
the head of the cache with the synthesized completion sentinel
`(False, None)`: complete (`done = true`) and failed (`success = false`), the
process-level-failure report that tells the result consumer this chunk will
produce nothing more, so the engine does not block indefinitely on it. -/
theorem claim_C1_crash_liveness (s : PoolState)
    (hc : s.cache ≠ [])
    (hcrash : ∃ w ∈ s.pool, crashedW w) :
    ∃ s', joinExitedWorkers s = Except.ok s' ∧
      (∃ rest, s'.cache = Job.mk true false :: rest) ∧
      s'.cache.length = s.cache.length := by
  obtain ⟨s', hrun, -, hlen, -, hcrashed, -, -⟩ := joinFold_spec s.pool s hc
  exact ⟨s', hrun, hcrashed hcrash, hlen⟩

/-- Behaviour of `n` successive supervisor polls of `_join_exited_workers`:
no failure, and however many workers exit with the import-error code over
time, at most one missing-definition diagnostic is ever added (none once the
`_missing_error_definition_error_is_new` flag has been spent). -/
theorem joinIter_spec (n : Nat) (s : PoolState) (hc : s.cache ≠ []) :
    ∃ s', joinIter n s = Except.ok s' ∧
      s'.cache.length = s.cache.length ∧
      countMissingDefMsg s'.stderrOut ≤
        countMissingDefMsg s.stderrOut + (if s.flagNew then 1 else 0) := by
  induction n generalizing s with
  | zero => exact ⟨s, rfl, rfl, Nat.le_add_right _ _⟩
  | succ n ih =>
      obtain ⟨s1, hrun, _, hlen1, _, _, hcount1, hflag1⟩ := joinFold_spec s.pool s hc
      have hrun' : joinExitedWorkers s = Except.ok s1 := hrun
      have hc1 : s1.cache ≠ [] := by
        intro hnil
        rw [hnil] at hlen1
        exact hc (List.length_eq_zero.mp hlen1.symm)
      obtain ⟨s2, hrun2, hlen2, hcount2⟩ := ih s1 hc1
      refine ⟨s2, ?_, hlen2.trans hlen1, ?_⟩
      · show joinExitedWorkers s >>= joinIter n = Except.ok s2
        rw [hrun']
        exact hrun2
      · rw [hflag1, hcount1] at hcount2
        cases hb1 : s.flagNew <;> cases hb2 : anyImportExit s.pool <;>
          rw [hb1, hb2] at hcount2 <;> simp_all

/-- **C6.** Serialization-failure diagnostics.  (i) One supervision pass over
the pool writes the specific missing-definition diagnostic exactly once when
some worker exited with the import-error code 1000 and the failure class has
not been reported before, and clears the freshness flag, so (ii) over any
number of supervision passes the diagnostic is emitted at most once in total.
(iii) When the `map_async` completion callback receives an exception whose
rendering contains a pickling phrase, it writes the specific, actionable
pickling diagnostic (the exception text followed by `pickleMessage`);
(iv) any other exception is forwarded as-is — the generic crash path —
so the two failure classes are distinguished. -/
theorem claim_C6_serialization_diagnostics :
    (∀ s : PoolState, s.cache ≠ [] →
      ∃ s', joinExitedWorkers s = Except.ok s' ∧
        countMissingDefMsg s'.stderrOut =
          countMissingDefMsg s.stderrOut +
            (if s.flagNew && anyImportExit s.pool then 1 else 0) ∧
        s'.flagNew = (s.flagNew && !anyImportExit s.pool)) ∧
    (∀ n : Nat, ∀ s : PoolState, s.cache ≠ [] → s.flagNew = true →
      ∃ s', joinIter n s = Except.ok s' ∧
        countMissingDefMsg s'.stderrOut ≤ countMissingDefMsg s.stderrOut + 1) ∧
    (∀ e : String, ∀ ch : Channels, isPicklingError e = true →
      doneOrFailed (some (.excArg e)) ch =
        { stdout := ch.stdout ++ [.sentinel],
          stderr := ch.stderr ++ [.message (e ++ pickleMessage), .sentinel] }) ∧
    (∀ e : String, ∀ ch : Channels, isPicklingError e = false →
      doneOrFailed (some (.excArg e)) ch =
        { stdout := ch.stdout ++ [.sentinel],
          stderr := ch.stderr ++ [.excValue e, .sentinel] }) := by
  refine ⟨?_, ?_, ?_, ?_⟩
  · intro s hc
    obtain ⟨s', hrun, _, _, _, _, hcount, hflag⟩ := joinFold_spec s.pool s hc
    exact ⟨s', hrun, hcount, hflag⟩
  · intro n s hc hflag
    obtain ⟨s', hrun, _, hcount⟩ := joinIter_spec n s hc
    rw [hflag] at hcount
    exact ⟨s', hrun, by simpa using hcount⟩
  · intro e ch hp
    simp [doneOrFailed, hp]
  · intro e ch hp
    simp [doneOrFailed, hp]

/-- Concrete instance of C6: the import-error diagnostic is written once for
a worker that exited with code 1000, and a pickling exception gets the
specific pickling diagnostic. -/
theorem claim_C6_serialization_diagnostics_witness :
    (∃ s', joinExitedWorkers samplePoolState = Except.ok s' ∧
      countMissingDefMsg s'.stderrOut =
        countMissingDefMsg samplePoolState.stderrOut +
          (if samplePoolState.flagNew && anyImportExit samplePoolState.pool
           then 1 else 0) ∧
      s'.flagNew = (samplePoolState.flagNew && !anyImportExit samplePoolState.pool)) ∧
    doneOrFailed (some (.excArg "Pickling failed")) Channels.empty =
      { stdout := [.sentinel],
        stderr := [.message ("Pickling failed" ++ pickleMessage), .sentinel] } := by
  constructor
  · exact claim_C6_serialization_diagnostics.1 samplePoolState (by decide)
  · have h := claim_C6_serialization_diagnostics.2.2.1 "Pickling failed"
      Channels.empty (by decide)
    simpa [Channels.empty] using h

/-- Concrete instance of C1: one worker exited with code 2000 while one job
is pending; supervision marks that job failed-and-complete. -/
theorem claim_C1_crash_liveness_witness :
    ∃ s', joinExitedWorkers ⟨[⟨some 2000⟩], [Job.mk false true], true, []⟩ =
        Except.ok s' ∧
      (∃ rest, s'.cache = Job.mk true false :: rest) ∧
      s'.cache.length = (⟨[⟨some 2000⟩], [Job.mk false true], true, []⟩ :
        PoolState).cache.length :=
  claim_C1_crash_liveness ⟨[⟨some 2000⟩], [Job.mk false true], true, []⟩
    (by simp)
    ⟨⟨some 2000⟩, by simp, 2000, rfl, by decide⟩

end Coba

namespace Coba

/-! ### Consumer-loop lemmas -/

theorem readLoop_interrupt (stream : List OutVal) (k : Nat) :
    ∀ i : Nat, i ≤ k → k - i < stream.length →
      readLoop (some k) stream i = (stream.take (k - i), true) := by
  induction stream with
  | nil =>
      intro i _ hlt
      simp at hlt
  | cons x xs ih =>
      intro i hik hlt
      by_cases hk : i = k
      · subst hk
        simp [readLoop, Nat.sub_self]
      · have hne : ¬ ((some k : Option Nat) = some i) := by
          simp
          omega
        have hik' : i + 1 ≤ k := by omega
        have hlt' : k - (i + 1) < xs.length := by
          simp at hlt
          omega
        rw [readLoop, if_neg hne, ih (i + 1) hik' hlt']
        have hsub : k - i = (k - (i + 1)) + 1 := by omega
        rw [hsub]
        simp

end Coba

namespace CobaExp

open Coba

theorem storeErase_lookup (st : List (String × Option Int)) (k : String) :
    (storeErase st k).lookup k = none := by
  induction st with
  | nil => rfl
  | cons p t ih =>
      by_cases h : p.1 = k
      · simpa [storeErase, List.filter_cons, h] using ih
      · have hb : (k == p.1) = false := by
          simp [Ne.symm h]
        simp [storeErase, List.filter_cons, h, List.lookup, hb] at ih ⊢
        exact ih

/-- **C5 (amended).**  After a user-initiated interrupt the *engine* stops
collecting remaining results (only the items read before the interrupt are
yielded), attempts a best-effort pool teardown (`pool.terminate()`, whose own
failure is swallowed — the pool is never `close`d normally), runs
`pool.join()` and re-raises the interrupt to the engine's caller.  The
*orchestrator* (`Experiment.run`), however, catches the interrupt, logs the
abort message, and returns the decoded `Result` normally instead of
re-raising it — this is the amendment: the source's `except KeyboardInterrupt`
swallows the interrupt at the orchestrator level. -/
theorem claim_C5_interrupt_amended :
    (∀ (stream : List OutVal) (k : Nat) (termFails : Bool), k < stream.length →
      engineCollect stream (some k) termFails =
        { yielded := stream.take k,
          fate := if termFails then .terminateAttemptFailed else .terminated,
          joined := true,
          reraised := true }) ∧
    (∀ (cfg : ExperimentCfg) (restored : Option Restored) (seed : Option Int)
        (descr : Option String) (written : List Row) (ctx : Ctx),
      assertsPassB cfg restored = true →
      ∃ out, Experiment.run cfg restored seed descr ⟨written, .interrupt⟩ ctx =
          Except.ok out ∧
        "Experiment Aborted (aborted via Ctrl-C)" ∈ out.logs) := by
  constructor
  · intro stream k termFails hk
    have h := readLoop_interrupt stream k 0 (Nat.zero_le k) (by simpa using hk)
    rw [engineCollect, h]
    rfl
  · intro cfg restored seed descr written ctx hpass
    unfold Experiment.run
    rw [hpass]
    exact ⟨_, rfl, by simp⟩

/-- Fixed concrete run used to refute C5 as stated: one (learner,
environment) pair, no restored log, an interrupted pipeline. -/
def interruptedRun : Except RunError RunOut :=
  Experiment.run ⟨[(some 1, some 2)]⟩ none (some 1) none
    ⟨[], PipeTerm.interrupt⟩ ⟨Logger.base 0, []⟩

/-- **C5 (counterexample).**  The claim says the orchestrator re-raises the
interrupt to its own caller rather than swallowing it; but on this concrete
interrupted run `Experiment.run` returns `Except.ok` — the interrupt is
swallowed, not propagated. -/
theorem claim_C5_counterexample :
    runRaisedInterrupt interruptedRun = false ∧
    runReturnedOk interruptedRun = true := by
  constructor <;> rfl

/-- Concrete instance of the amended C5: a three-item stream interrupted
before the second read yields exactly the first item, terminates the pool and
re-raises; the orchestrator then swallows the interrupt. -/
theorem claim_C5_interrupt_amended_witness :
    engineCollect [OutVal.item 7, OutVal.item 8, OutVal.item 9] (some 1) false =
      { yielded := [OutVal.item 7],
        fate := .terminated,
        joined := true,
        reraised := true } ∧
    ∃ out, Experiment.run ⟨[(some 1, some 2)]⟩ none (some 1) none
        ⟨[], PipeTerm.interrupt⟩ ⟨Logger.base 0, []⟩ = Except.ok out ∧
      "Experiment Aborted (aborted via Ctrl-C)" ∈ out.logs := by
  constructor
  · have h := claim_C5_interrupt_amended.1 [OutVal.item 7, OutVal.item 8, OutVal.item 9]
      1 false (by decide)
    simpa using h
  · exact claim_C5_interrupt_amended.2 ⟨[(some 1, some 2)]⟩ none (some 1) none
      [] ⟨Logger.base 0, []⟩ (by decide)

end CobaExp

namespace CobaExp

/-- **C3.** With a restored log that carries logged counts, `Experiment.run`
resumes only when the requested learner count equals the logged learner count
and the requested environment count equals the logged environment count: any
mismatch yields the fatal `AssertionError` configuration error, and the
outcome is then independent of the pipeline behaviour — the error is raised
before any work item executes; when the counts match, the run proceeds
normally. -/
theorem claim_C3_resume_validation (cfg : ExperimentCfg) (r : Restored)
    (x y : Nat) (hx : r.nLearners = some x) (hy : r.nEnvironments = some y)
    (seed : Option Int) (descr : Option String) (pr pr2 : PipeRun) (ctx : Ctx) :
    (¬ (nGivenLearners cfg = x ∧ nGivenEnvironments cfg = y) →
      Experiment.run cfg (some r) seed descr pr ctx =
        Except.error (RunError.assertionError logMismatchMessage) ∧
      Experiment.run cfg (some r) seed descr pr ctx =
        Experiment.run cfg (some r) seed descr pr2 ctx) ∧
    ((nGivenLearners cfg = x ∧ nGivenEnvironments cfg = y) →
      ∃ out, Experiment.run cfg (some r) seed descr pr ctx = Except.ok out) := by
  have hpassP : assertsPassB cfg (some r) =
      ((nGivenLearners cfg == x) && (nGivenEnvironments cfg == y)) := by
    simp [assertsPassB, hx, hy]
  constructor
  · intro hne
    have hfalse : assertsPassB cfg (some r) = false := by
      rw [hpassP]
      rcases not_and_or.mp hne with h | h
      · simp [h]
      · simp [h]
    have e1 : Experiment.run cfg (some r) seed descr pr ctx =
        Except.error (RunError.assertionError logMismatchMessage) := by
      unfold Experiment.run
      rw [hfalse]
      rfl
    have e2 : Experiment.run cfg (some r) seed descr pr2 ctx =
        Except.error (RunError.assertionError logMismatchMessage) := by
      unfold Experiment.run
      rw [hfalse]
      rfl
    exact ⟨e1, e1.trans e2.symm⟩
  · intro heq
    have htrue : assertsPassB cfg (some r) = true := by
      rw [hpassP]
      simp [heq.1, heq.2]
    unfold Experiment.run
    rw [htrue]
    exact ⟨_, rfl⟩

/-- Concrete instance of C3: requesting 1 learner against a log whose `T0`
row recorded 5 learners fails with the `AssertionError`, for any pipeline. -/
theorem claim_C3_resume_validation_witness :
    Experiment.run ⟨[(some 1, some 2)]⟩ (some ⟨some 5, some 1, []⟩) (some 1)
        none ⟨[], PipeTerm.normal⟩ ⟨Logger.base 0, []⟩ =
      Except.error (RunError.assertionError logMismatchMessage) :=
  ((claim_C3_resume_validation ⟨[(some 1, some 2)]⟩ ⟨some 5, some 1, []⟩ 5 1
      rfl rfl (some 1) none ⟨[], PipeTerm.normal⟩ ⟨[], PipeTerm.interrupt⟩
      ⟨Logger.base 0, []⟩).1 (by decide)).1

/-- **C7.** A fresh run (no restored log) writes as the first record of the
log the `"T0"` `RunMeta` row carrying the learner count, the environment
count, the description and the seed, followed by the pipeline's rows; a
resumed run (restored log present and compatible) writes no `RunMeta` row at
all — its contribution to the sink is exactly the pipeline's rows. -/
theorem claim_C7_runmeta_fresh_only :
    (∀ (cfg : ExperimentCfg) (seed : Option Int) (descr : Option String)
        (pr : PipeRun) (ctx : Ctx),
      ∃ out, Experiment.run cfg none seed descr pr ctx = Except.ok out ∧
        out.writtenByRun =
          Row.runMeta (nGivenLearners cfg) (nGivenEnvironments cfg) descr seed
            :: pr.written) ∧
    (∀ (cfg : ExperimentCfg) (r : Restored) (seed : Option Int)
        (descr : Option String) (pr : PipeRun) (ctx : Ctx),
      assertsPassB cfg (some r) = true →
      ∃ out, Experiment.run cfg (some r) seed descr pr ctx = Except.ok out ∧
        out.writtenByRun = pr.written) := by
  constructor
  · intro cfg seed descr pr ctx
    unfold Experiment.run
    have h : assertsPassB cfg none = true := rfl
    rw [h]
    exact ⟨_, rfl, by simp [preambleRows]⟩
  · intro cfg r seed descr pr ctx hpass
    unfold Experiment.run
    rw [hpass]
    exact ⟨_, rfl, by simp [preambleRows]⟩

/-- Concrete instance of C7 (resumed side): a compatible resumed run appends
exactly the pipeline's rows, no new `RunMeta`. -/
theorem claim_C7_runmeta_fresh_only_witness :
    ∃ out, Experiment.run ⟨[(some 1, some 2)]⟩
        (some ⟨some 1, some 1, [Row.dataRow 3]⟩) (some 1) none
        ⟨[Row.dataRow 4], PipeTerm.normal⟩ ⟨Logger.base 0, []⟩ =
      Except.ok out ∧ out.writtenByRun = [Row.dataRow 4] :=
  claim_C7_runmeta_fresh_only.2 ⟨[(some 1, some 2)]⟩ ⟨some 1, some 1, [Row.dataRow 3]⟩
    (some 1) none ⟨[Row.dataRow 4], PipeTerm.normal⟩ ⟨Logger.base 0, []⟩ (by decide)

/-- **C8.** Constructing an `Experiment` raises the `CobaException`
configuration error, before any work item is produced (construction never
yields an `Experiment` value in that case), whenever some learner reference
is `None` (first check) or, all learners being present, some environment
reference is `None` (second check); with all references present construction
succeeds and stores the pairs. -/
theorem claim_C8_none_reference_config_error (pairs : List (Option Nat × Option Nat)) :
    ((∃ p ∈ pairs, p.1 = none) →
      Experiment.init pairs =
        Except.error (CobaErr.cobaException learnerNoneMessage)) ∧
    ((∀ p ∈ pairs, p.1 ≠ none) → (∃ p ∈ pairs, p.2 = none) →
      Experiment.init pairs =
        Except.error (CobaErr.cobaException environmentNoneMessage)) ∧
    ((∀ p ∈ pairs, p.1 ≠ none ∧ p.2 ≠ none) →
      Experiment.init pairs = Except.ok ⟨pairs⟩) := by
  refine ⟨?_, ?_, ?_⟩
  · rintro ⟨p, hp, h1⟩
    have h : (pairs.any fun q => q.1.isNone) = true :=
      List.any_eq_true.mpr ⟨p, hp, by simp [h1]⟩
    simp [Experiment.init, h]
  · rintro hall ⟨p, hp, h2⟩
    have h1 : (pairs.any fun q => q.1.isNone) = false := by
      rw [List.any_eq_false]
      intro q hq
      simpa using hall q hq
    have h2' : (pairs.any fun q => q.2.isNone) = true :=
      List.any_eq_true.mpr ⟨p, hp, by simp [h2]⟩
    simp [Experiment.init, h1, h2']
  · intro hall
    have h1 : (pairs.any fun q => q.1.isNone) = false := by
      rw [List.any_eq_false]
      intro q hq
      simpa using (hall q hq).1
    have h2 : (pairs.any fun q => q.2.isNone) = false := by
      rw [List.any_eq_false]
      intro q hq
      simpa using (hall q hq).2
    simp [Experiment.init, h1, h2]

/-- Concrete instance of C8: a pair with a `None` learner makes construction
fail with the learner configuration error. -/
theorem claim_C8_none_reference_config_error_witness :
    Experiment.init [(none, some 2)] =
      Except.error (CobaErr.cobaException learnerNoneMessage) :=
  (claim_C8_none_reference_config_error [(none, some 2)]).1
    ⟨(none, some 2), by simp, rfl⟩

/-- **C9.** When the pipeline raises an exception other than
`KeyboardInterrupt`, `Experiment.run` catches it, logs the exception and the
closing message, and still returns `Except.ok` with the `Result` decoded from
whatever the sink contains (the prior rows plus whatever this run wrote
before failing); the failure is never propagated to the caller. -/
theorem claim_C9_pipeline_exception_swallowed
    (cfg : ExperimentCfg) (restored : Option Restored) (seed : Option Int)
    (descr : Option String) (written : List Row) (e : String) (ctx : Ctx)
    (hpass : assertsPassB cfg restored = true) :
    ∃ out, Experiment.run cfg restored seed descr ⟨written, .excn e⟩ ctx =
        Except.ok out ∧
      out.resultRows = priorRows restored ++ out.writtenByRun ∧
      e ∈ out.logs ∧ "Experiment Stopped" ∈ out.logs := by
  unfold Experiment.run
  rw [hpass]
  exact ⟨_, rfl, rfl, by simp, by simp⟩

/-- Concrete instance of C9: a pipeline failure is logged, the partial sink
is decoded and returned, no exception escapes. -/
theorem claim_C9_pipeline_exception_swallowed_witness :
    ∃ out, Experiment.run ⟨[(some 1, some 2)]⟩ none (some 1) none
        ⟨[Row.dataRow 4], PipeTerm.excn "boom"⟩ ⟨Logger.base 0, []⟩ =
      Except.ok out ∧
      out.resultRows = priorRows none ++ out.writtenByRun ∧
      "boom" ∈ out.logs ∧ "Experiment Stopped" ∈ out.logs :=
  claim_C9_pipeline_exception_swallowed ⟨[(some 1, some 2)]⟩ none (some 1) none
    [Row.dataRow 4] "boom" ⟨Logger.base 0, []⟩ rfl

/-- **C10.** Whenever the pipeline terminates — normally, with a caught
exception, or with a caught interrupt (`pr.term` is universally quantified) —
`Experiment.run` hands back a context whose logger is the one from before the
call and whose store no longer binds the key `"experiment_seed"`. -/
theorem claim_C10_context_restored
    (cfg : ExperimentCfg) (restored : Option Restored) (seed : Option Int)
    (descr : Option String) (pr : PipeRun) (ctx : Ctx)
    (hpass : assertsPassB cfg restored = true) :
    ∃ out, Experiment.run cfg restored seed descr pr ctx = Except.ok out ∧
      out.ctx.logger = ctx.logger ∧
      out.ctx.store.lookup "experiment_seed" = none := by
  unfold Experiment.run
  rw [hpass]
  exact ⟨_, rfl, rfl, storeErase_lookup _ _⟩

/-- Concrete instance of C10: after an interrupted run the logger is back to
its original value and the seed entry is gone from the store. -/
theorem claim_C10_context_restored_witness :
    ∃ out, Experiment.run ⟨[(some 1, some 2)]⟩ none (some 7) none
        ⟨[], PipeTerm.interrupt⟩ ⟨Logger.base 3, [("other", some 9)]⟩ =
      Except.ok out ∧
      out.ctx.logger = (⟨Logger.base 3, [("other", some 9)]⟩ : Ctx).logger ∧
      out.ctx.store.lookup "experiment_seed" = none :=
  claim_C10_context_restored ⟨[(some 1, some 2)]⟩ none (some 7) none
    ⟨[], PipeTerm.interrupt⟩ ⟨Logger.base 3, [("other", some 9)]⟩ rfl

end CobaExp
